import Mathlib

/-!
Verification of the `image_optimizer_api` service
(`src/image_optimizer_api/main.py`), a FastAPI application exposing two
handlers, `convert_image` (`POST /api/v1/convert`) and `resize_image`
(`POST /api/v1/resize`), which delegate decoding, resampling and encoding
to the Pillow library.

Shallow embedding notes:
* The Pillow library is modelled as an explicit environment `PillowEnv`
  of three oracles: `decode` (the `file.read()` + `Image.open` step),
  `resample` (`img.resize(..., LANCZOS)`) and `encode` (`img.save`).
  Each returns `Except String _`, the `String` being the exception text
  that the handler interpolates into its error details.
* A handler run returns its HTTP outcome together with the list of
  library-interaction events it performed, in order, so that "the
  rejection happens before the upload is read or decoded" is the
  statement that the event list is empty.
* Python's `int(x)` truncation toward zero on the aspect-ratio formula
  `int((width / original_width) * original_height)` is modelled over
  exact rationals (`pyInt`); the binary floating-point evaluation of the
  intermediate quotient is idealised as exact real-number division,
  which is the arithmetic the specification itself prescribes.
* Python's truthiness test `img.format if img.format else "JPEG"` is
  modelled exactly, including the falsiness of the empty string.
-/

/-- A decoded in-memory image handle, as exposed by `Image.open`:
`img.size = (width, height)` and `img.format` (Pillow reports `None`
when the source format could not be determined). -/
structure DecodedImage where
  width : Nat
  height : Nat
  format : Option String
deriving DecidableEq, Repr

/-- The image-processing library (Pillow) as a black-box environment.
`decode` covers `await file.read()` followed by `Image.open`;
`resample` is `img.resize((w, h), Image.Resampling.LANCZOS)`;
`encode` is `img.save(stream, format, quality?)`, returning the bytes
written to the output stream.  An `Except.error` is a raised exception
with the given message text. -/
structure PillowEnv where
  decode : List Nat → Except String DecodedImage
  resample : DecodedImage → Int → Int → Except String DecodedImage
  encode : DecodedImage → String → Option Nat → Except String (List Nat)

/-- Library interactions performed by a handler, in order. -/
inductive Event where
  | readFile
  | decodeImage
  | resampleEv (w h : Int)
  | encodeEv (format : String) (quality : Option Nat)
deriving DecidableEq, Repr

/-- HTTP outcome of a handler: a 200 `StreamingResponse` with body,
media type and `Content-Disposition` filename, or an `HTTPException`
with status code and detail. -/
inductive Response where
  | ok (body : List Nat) (mediaType : String) (filename : String)
  | error (status : Nat) (detail : String)
deriving DecidableEq, Repr

/-- Python `int(x)` applied to an exact rational: truncation toward
zero.  For `q = num/den` in lowest terms with `den > 0`, this is the
T-division of the numerator by the denominator. -/
def pyInt (q : ℚ) : Int := q.num.tdiv q.den

/-- Python `str.upper()` (the formats at play are ASCII). -/
def pyUpper (s : String) : String := String.mk (s.data.map Char.toUpper)

/-- Python `str.lower()` (the formats at play are ASCII). -/
def pyLower (s : String) : String := String.mk (s.data.map Char.toLower)

/-- Python truthiness selection `img.format if img.format else "JPEG"`:
both `None` and the (falsy) empty string fall back to `"JPEG"`. -/
def pyFormat : Option String → String
  | none => "JPEG"
  | some f => if f = "" then "JPEG" else f

/-- The format allow-list of the conversion endpoint:
`["WEBP", "JPEG", "PNG", "BMP"]` (the membership test happens after
`target_format.upper()`). -/
def allowedFormats : List String := ["WEBP", "JPEG", "PNG", "BMP"]

/-- The two lossy formats: `quality` is forwarded to the encoder exactly
when the output format is in this list. -/
def lossyFormats : List String := ["JPEG", "WEBP"]

/-- The aspect-ratio computation of `resize_image` (step 3 of the
handler).  With only `width`, `height = int((width / original_width) *
original_height)`; with only `height`, symmetric; with both, they are
used exactly as provided.  The `none, none` case is unreachable: the
handler raises a 400 before reaching this computation. -/
def computeDims (width height : Option Int) (W0 H0 : Nat) : Int × Int :=
  match width, height with
  | some w, none => (w, pyInt (((w : ℚ) / (W0 : ℚ)) * (H0 : ℚ)))
  | none, some h => (pyInt (((h : ℚ) / (H0 : ℚ)) * (W0 : ℚ)), h)
  | some w, some h => (w, h)
  | none, none => (0, 0)

/-- The `POST /api/v1/convert` handler.  Mirrors `convert_image` in
`main.py`: (1) uppercase `target_format` and check the allow-list,
raising a 400 before any file access on failure; (2) read and decode
the upload, turning any exception into a 400 carrying the library error
text; (3) encode, passing `quality` only for lossy formats and turning
any exception into a 500; (4) build the streaming response. -/
def convert_image (env : PillowEnv) (file : List Nat)
    (target_format : String) (quality : Nat) : Response × List Event :=
  let tf := pyUpper target_format
  if tf ∉ allowedFormats then
    (.error 400 ("Output format \x27" ++ tf ++ "\x27 is not supported."), [])
  else
    match env.decode file with
    | .error e =>
        (.error 400 ("Could not process the image. Error: " ++ e),
         [.readFile, .decodeImage])
    | .ok img =>
        let qopt : Option Nat := if tf ∈ lossyFormats then some quality else none
        match env.encode img tf qopt with
        | .error e =>
            (.error 500 ("Failed to save the image in the new format. Error: " ++ e),
             [.readFile, .decodeImage, .encodeEv tf qopt])
        | .ok body =>
            (.ok body ("image/" ++ pyLower tf) ("optimized." ++ pyLower tf),
             [.readFile, .decodeImage, .encodeEv tf qopt])

/-- The `POST /api/v1/resize` handler.  Mirrors `resize_image` in
`main.py`: (1) raise a 400 before any file access when both `width` and
`height` are `None`; (2) read and decode the upload, turning any
exception into a 400 carrying the library error text; (3) compute the
final dimensions (`computeDims`); (4) resample, turning any exception
into a 500; (5) encode in the original detected format (JPEG fallback),
passing `quality` only for lossy formats, turning any exception into a
500; (6) build the streaming response, whose filename carries the final
computed dimensions. -/
def resize_image (env : PillowEnv) (file : List Nat)
    (width height : Option Int) (quality : Nat) : Response × List Event :=
  if width = none ∧ height = none then
    (.error 400 "At least \x27width\x27 or \x27height\x27 must be provided for resizing.", [])
  else
    match env.decode file with
    | .error e =>
        (.error 400 ("Could not process the image. Error: " ++ e),
         [.readFile, .decodeImage])
    | .ok img =>
        let dims := computeDims width height img.width img.height
        match env.resample img dims.1 dims.2 with
        | .error e =>
            (.error 500 ("Failed to resize the image. Error: " ++ e),
             [.readFile, .decodeImage, .resampleEv dims.1 dims.2])
        | .ok resized =>
            let original_format := pyFormat img.format
            let qopt : Option Nat :=
              if original_format ∈ lossyFormats then some quality else none
            match env.encode resized original_format qopt with
            | .error e =>
                (.error 500 ("Failed to save the resized image. Error: " ++ e),
                 [.readFile, .decodeImage, .resampleEv dims.1 dims.2,
                  .encodeEv original_format qopt])
            | .ok body =>
                (.ok body ("image/" ++ pyLower original_format)
                   ("resized_" ++ toString dims.1 ++ "x" ++ toString dims.2
                     ++ "." ++ pyLower original_format),
                 [.readFile, .decodeImage, .resampleEv dims.1 dims.2,
                  .encodeEv original_format qopt])

/-- A sample environment whose decoder always yields a 100×33 PNG. -/
def sampleEnv : PillowEnv where
  decode := fun _ => .ok ⟨100, 33, some "PNG"⟩
  resample := fun _ w h => .ok ⟨w.toNat, h.toNat, some "PNG"⟩
  encode := fun _ _ _ => .ok [7]

/-- An environment whose decoder always raises. -/
def failEnv : PillowEnv where
  decode := fun _ => .error "cannot identify image file"
  resample := fun _ w h => .ok ⟨w.toNat, h.toNat, none⟩
  encode := fun _ _ _ => .ok []

/-- An environment whose resampler always raises. -/
def resampleFailEnv : PillowEnv where
  decode := fun _ => .ok ⟨100, 33, some "PNG"⟩
  resample := fun _ _ _ => .error "height and width must be > 0"
  encode := fun _ _ _ => .ok []

/-- An environment whose decoder yields a GIF image, a format outside
the conversion allow-list. -/
def gifEnv : PillowEnv where
  decode := fun _ => .ok ⟨10, 10, some "GIF"⟩
  resample := fun i _ _ => .ok i
  encode := fun _ _ _ => .ok [9]

/-- On nonnegative rationals, Python truncation agrees with the floor. -/
theorem pyInt_eq_floor (q : ℚ) (h : 0 ≤ q) : pyInt q = ⌊q⌋ := by
  rw [pyInt, Rat.floor_def, Int.tdiv_eq_ediv (Rat.num_nonneg.mpr h) (by positivity)]

/-- Python truncation is an odd function (truncation toward zero). -/
theorem pyInt_neg (q : ℚ) : pyInt (-q) = -pyInt q := by
  rw [pyInt, pyInt, Rat.num_neg_eq_neg_num, Rat.den_neg_eq_den, Int.neg_tdiv]

/-- Truncation toward zero of the exact rational `a / b` is the
T-division of `a` by `b`. -/
theorem pyInt_intCast_div_natCast (a : ℤ) (b : ℕ) :
    pyInt ((a : ℚ) / (b : ℚ)) = a.tdiv b := by
  rcases le_or_lt 0 a with ha | ha
  · rw [pyInt_eq_floor _ (by positivity), Rat.floor_intCast_div_natCast,
        Int.tdiv_eq_ediv ha (Int.ofNat_nonneg b)]
  · have h1 : (a : ℚ) / (b : ℚ) = -(((-a : ℤ) : ℚ) / (b : ℚ)) := by push_cast; ring
    have h2 : (0 : ℚ) ≤ ((-a : ℤ) : ℚ) / (b : ℚ) :=
      div_nonneg (by exact_mod_cast (by omega : (0 : ℤ) ≤ -a)) (by positivity)
    rw [h1, pyInt_neg, pyInt_eq_floor _ h2, Rat.floor_intCast_div_natCast,
        ← Int.tdiv_eq_ediv (by omega) (Int.ofNat_nonneg b), Int.neg_tdiv, neg_neg]

/-- With only `width` supplied, the computed height is the T-division
of `w * H0` by `W0`. -/
theorem computeDims_width_only (w : Int) (W0 H0 : Nat) :
    computeDims (some w) none W0 H0 = (w, (w * H0).tdiv W0) := by
  have h : ((w : ℚ) / (W0 : ℚ)) * (H0 : ℚ) = ((w * (H0 : ℤ) : ℤ) : ℚ) / ((W0 : ℕ) : ℚ) := by
    push_cast; ring
  simp only [computeDims]
  rw [h, pyInt_intCast_div_natCast]

/-- With only `height` supplied, the computed width is the T-division
of `h * W0` by `H0`. -/
theorem computeDims_height_only (h : Int) (W0 H0 : Nat) :
    computeDims none (some h) W0 H0 = ((h * W0).tdiv H0, h) := by
  have hh : ((h : ℚ) / (H0 : ℚ)) * (W0 : ℚ) = ((h * (W0 : ℤ) : ℤ) : ℚ) / ((H0 : ℕ) : ℚ) := by
    push_cast; ring
  simp only [computeDims]
  rw [hh, pyInt_intCast_div_natCast]

/-- Once the upload decodes, the first three events of a resize run are
always the file read, the decode, and the resampling call at the
computed dimensions, whatever the resampler and encoder then do. -/
theorem resize_trace_take3 (env : PillowEnv) (file : List Nat)
    (width height : Option Int) (q : Nat) (img : DecodedImage)
    (hwh : ¬(width = none ∧ height = none))
    (hdec : env.decode file = .ok img) :
    (resize_image env file width height q).2.take 3 =
      [.readFile, .decodeImage,
       .resampleEv (computeDims width height img.width img.height).1
         (computeDims width height img.width img.height).2] := by
  rcases hres : env.resample img (computeDims width height img.width img.height).1
      (computeDims width height img.width img.height).2 with e | resized
  · simp [resize_image, if_neg hwh, hdec, hres]
  · rcases henc : env.encode resized (pyFormat img.format)
        (if pyFormat img.format ∈ lossyFormats then some q else none) with e | body <;>
      simp [resize_image, if_neg hwh, hdec, hres, henc]

/-- Claim C1: on a decoded image of size `(W0, H0)` with `W0 > 0` and
`H0 > 0`, a resize request supplying only `width = w` resamples at
final height `(w * H0).tdiv W0`, which is exactly the real-number
quotient `w * H0 / W0` truncated toward zero, and equals its floor for
nonnegative `w`; symmetrically, supplying only `height = h` resamples
at final width `(h * W0).tdiv H0`, the truncation toward zero of
`h * W0 / H0`. -/
theorem resize_aspect_ratio_truncation (env : PillowEnv) (file : List Nat)
    (img : DecodedImage) (q : Nat) (w h : Int)
    (hdec : env.decode file = .ok img)
    (hW : 0 < img.width) (hH : 0 < img.height) :
    ((resize_image env file (some w) none q).2.take 3 =
      [.readFile, .decodeImage, .resampleEv w ((w * img.height).tdiv img.width)]) ∧
    ((w * img.height).tdiv img.width =
      pyInt (((w * img.height : ℤ) : ℚ) / (img.width : ℚ))) ∧
    (0 ≤ w →
      (w * img.height).tdiv img.width =
        ⌊((w : ℚ) * (img.height : ℚ)) / (img.width : ℚ)⌋) ∧
    ((resize_image env file none (some h) q).2.take 3 =
      [.readFile, .decodeImage, .resampleEv ((h * img.width).tdiv img.height) h]) ∧
    ((h * img.width).tdiv img.height =
      pyInt (((h * img.width : ℤ) : ℚ) / (img.height : ℚ))) := by
  refine ⟨?_, ?_, ?_, ?_, ?_⟩
  · rw [resize_trace_take3 env file (some w) none q img (by simp) hdec,
        computeDims_width_only]
  · exact (pyInt_intCast_div_natCast (w * img.height) img.width).symm
  · intro hw
    have h1 : ((w : ℚ) * (img.height : ℚ)) / (img.width : ℚ) =
        ((w * (img.height : ℤ) : ℤ) : ℚ) / ((img.width : ℕ) : ℚ) := by push_cast; ring
    rw [h1, Rat.floor_intCast_div_natCast,
        Int.tdiv_eq_ediv (mul_nonneg hw (by positivity)) (by positivity)]
  · rw [resize_trace_take3 env file none (some h) q img (by simp) hdec,
        computeDims_height_only]
  · exact (pyInt_intCast_div_natCast (h * img.width) img.height).symm

/-- Witness for C1 at the spec's own instance: a 100×33 image resized
with only `width = 10` resamples at height `3 = ⌊10 * 33 / 100⌋`. -/
theorem resize_aspect_ratio_truncation_witness :
    ((resize_image sampleEnv [] (some 10) none 85).2.take 3 =
      [.readFile, .decodeImage, .resampleEv 10 3]) ∧
    (10 * (33 : ℤ)).tdiv 100 = 3 := by
  have h := resize_aspect_ratio_truncation sampleEnv [] ⟨100, 33, some "PNG"⟩ 85 10 7
    rfl (by decide) (by decide)
  exact ⟨h.1.trans (by decide), by decide⟩

/-- Claim C2: a conversion request whose `target_format`, uppercased,
is outside `{WEBP, JPEG, PNG, BMP}` is answered 400 for every
environment, payload and quality — the payload plays no role — and the
empty event trace shows the upload is neither read nor decoded. -/
theorem convert_unsupported_format_400 (env : PillowEnv) (file : List Nat)
    (q : Nat) (tf : String) (h : pyUpper tf ∉ allowedFormats) :
    convert_image env file tf q =
      (.error 400 ("Output format \x27" ++ pyUpper tf ++ "\x27 is not supported."), []) := by
  simp only [convert_image, if_pos h]

/-- Witness for C2: `target_format = "gif"` is rejected with a 400 and
no library interaction, even on an environment whose decoder would
succeed. -/
theorem convert_unsupported_format_400_witness :
    pyUpper "gif" ∉ allowedFormats ∧
    convert_image sampleEnv [0, 1, 2] "gif" 85 =
      (.error 400 ("Output format \x27" ++ pyUpper "gif" ++ "\x27 is not supported."), []) :=
  ⟨by decide, convert_unsupported_format_400 sampleEnv [0, 1, 2] 85 "gif" (by decide)⟩

/-- Claim C3: a resize request with both `width` and `height` absent is
answered 400 for every environment, payload and quality, and the empty
event trace shows the upload is neither read nor decoded. -/
theorem resize_missing_dimension_400 (env : PillowEnv) (file : List Nat) (q : Nat) :
    resize_image env file none none q =
      (.error 400 "At least \x27width\x27 or \x27height\x27 must be provided for resizing.",
       []) := rfl

/-- Claim C4: when the upload does not decode (the decode oracle
raises with message `msg`), both endpoints answer 400 — never 500 —
and the raised library text is embedded in the error detail.  The
request must reach the decode stage: the conversion request carries an
allow-listed format and the resize request carries at least one
dimension. -/
theorem decode_failure_400_with_library_text (env : PillowEnv) (file : List Nat)
    (tf : String) (q : Nat) (width height : Option Int) (msg : String)
    (hfmt : pyUpper tf ∈ allowedFormats)
    (hwh : ¬(width = none ∧ height = none))
    (hdec : env.decode file = .error msg) :
    convert_image env file tf q =
      (.error 400 ("Could not process the image. Error: " ++ msg),
       [.readFile, .decodeImage]) ∧
    resize_image env file width height q =
      (.error 400 ("Could not process the image. Error: " ++ msg),
       [.readFile, .decodeImage]) := by
  constructor
  · simp only [convert_image, if_neg (not_not_intro hfmt), hdec]
  · simp only [resize_image, if_neg hwh, hdec]

/-- Witness for C4: an environment whose decoder raises
`"cannot identify image file"` makes both endpoints answer 400 with
that text embedded. -/
theorem decode_failure_400_with_library_text_witness :
    pyUpper "png" ∈ allowedFormats ∧
    failEnv.decode [255] = .error "cannot identify image file" ∧
    convert_image failEnv [255] "png" 85 =
      (.error 400 ("Could not process the image. Error: " ++ "cannot identify image file"),
       [.readFile, .decodeImage]) ∧
    resize_image failEnv [255] (some 1) none 85 =
      (.error 400 ("Could not process the image. Error: " ++ "cannot identify image file"),
       [.readFile, .decodeImage]) := by
  have h := decode_failure_400_with_library_text failEnv [255] "png" 85 (some 1) none
    "cannot identify image file" (by decide) (by simp) rfl
  exact ⟨by decide, rfl, h.1, h.2⟩

/-- Claim C5: a successful resize encodes in the original detected
source format with JPEG fallback (`pyFormat img.format`): the encoder
is invoked with that format, the Content-Type is `image/<lowercase>`
and the filename extension is the format lowercased.  The conversion
path instead encodes in the explicitly requested (uppercased)
`target_format`. -/
theorem resize_output_uses_source_format (env : PillowEnv) (file : List Nat)
    (img resized : DecodedImage) (body : List Nat) (q : Nat)
    (width height : Option Int)
    (hwh : ¬(width = none ∧ height = none))
    (hdec : env.decode file = .ok img)
    (hres : env.resample img (computeDims width height img.width img.height).1
        (computeDims width height img.width img.height).2 = .ok resized)
    (henc : env.encode resized (pyFormat img.format)
        (if pyFormat img.format ∈ lossyFormats then some q else none) = .ok body) :
    resize_image env file width height q =
      (.ok body ("image/" ++ pyLower (pyFormat img.format))
         ("resized_" ++ toString (computeDims width height img.width img.height).1 ++ "x"
           ++ toString (computeDims width height img.width img.height).2
           ++ "." ++ pyLower (pyFormat img.format)),
       [.readFile, .decodeImage,
        .resampleEv (computeDims width height img.width img.height).1
          (computeDims width height img.width img.height).2,
        .encodeEv (pyFormat img.format)
          (if pyFormat img.format ∈ lossyFormats then some q else none)]) ∧
    (∀ tf bodyc, pyUpper tf ∈ allowedFormats →
      env.encode img (pyUpper tf)
          (if pyUpper tf ∈ lossyFormats then some q else none) = .ok bodyc →
      convert_image env file tf q =
        (.ok bodyc ("image/" ++ pyLower (pyUpper tf)) ("optimized." ++ pyLower (pyUpper tf)),
         [.readFile, .decodeImage,
          .encodeEv (pyUpper tf) (if pyUpper tf ∈ lossyFormats then some q else none)])) := by
  constructor
  · simp only [resize_image, if_neg hwh, hdec, hres, henc]
  · intro tf bodyc hfmt hencc
    simp only [convert_image, if_neg (not_not_intro hfmt), hdec, hencc]

/-- Witness for C5: resizing a decoded PNG returns `image/png` with a
`.png` filename and an encoder call carrying `"PNG"` and no quality. -/
theorem resize_output_uses_source_format_witness :
    resize_image sampleEnv [] (some 20) (some 10) 85 =
      (.ok [7] "image/png" "resized_20x10.png",
       [.readFile, .decodeImage, .resampleEv 20 10, .encodeEv "PNG" none]) := by
  have h := resize_output_uses_source_format sampleEnv [] ⟨100, 33, some "PNG"⟩
    ⟨20, 10, some "PNG"⟩ [7] 85 (some 20) (some 10) (by simp) rfl rfl rfl
  exact h.1.trans (by decide)

/-- Claim C6: when only one dimension is supplied, the filename of a
successful resize is `resized_<width>x<height>.<format-lowercase>`
built from the final computed dimensions — the ones the resampling
call receives — not merely the requested parameter. -/
theorem resize_filename_uses_final_dims (env : PillowEnv) (file : List Nat)
    (img : DecodedImage) (q : Nat) (w h : Int)
    (hdec : env.decode file = .ok img) :
    (∀ resized body,
      env.resample img w ((w * img.height).tdiv img.width) = .ok resized →
      env.encode resized (pyFormat img.format)
          (if pyFormat img.format ∈ lossyFormats then some q else none) = .ok body →
      resize_image env file (some w) none q =
        (.ok body ("image/" ++ pyLower (pyFormat img.format))
           ("resized_" ++ toString w ++ "x" ++ toString ((w * img.height).tdiv img.width)
             ++ "." ++ pyLower (pyFormat img.format)),
         [.readFile, .decodeImage, .resampleEv w ((w * img.height).tdiv img.width),
          .encodeEv (pyFormat img.format)
            (if pyFormat img.format ∈ lossyFormats then some q else none)])) ∧
    (∀ resized body,
      env.resample img ((h * img.width).tdiv img.height) h = .ok resized →
      env.encode resized (pyFormat img.format)
          (if pyFormat img.format ∈ lossyFormats then some q else none) = .ok body →
      resize_image env file none (some h) q =
        (.ok body ("image/" ++ pyLower (pyFormat img.format))
           ("resized_" ++ toString ((h * img.width).tdiv img.height) ++ "x" ++ toString h
             ++ "." ++ pyLower (pyFormat img.format)),
         [.readFile, .decodeImage, .resampleEv ((h * img.width).tdiv img.height) h,
          .encodeEv (pyFormat img.format)
            (if pyFormat img.format ∈ lossyFormats then some q else none)])) := by
  constructor
  · intro resized body hres henc
    simp only [resize_image, hdec, computeDims_width_only, hres, henc]
    simp
  · intro resized body hres henc
    simp only [resize_image, hdec, computeDims_height_only, hres, henc]
    simp

/-- Witness for C6: requesting only `width = 10` on a 100×33 PNG
produces the filename `resized_10x3.png` — `3` being the computed
height, not a requested parameter. -/
theorem resize_filename_uses_final_dims_witness :
    resize_image sampleEnv [] (some 10) none 85 =
      (.ok [7] "image/png" "resized_10x3.png",
       [.readFile, .decodeImage, .resampleEv 10 3, .encodeEv "PNG" none]) := by
  have hh := (resize_filename_uses_final_dims sampleEnv [] ⟨100, 33, some "PNG"⟩ 85 10 7
    rfl).1 ⟨10, 3, some "PNG"⟩ [7] rfl rfl
  exact hh.trans (by decide)

/-- Claim C7: two-run noninterference of `quality` for non-lossy output.
When the conversion target (uppercased) is PNG or BMP, and when every
image the decode oracle can yield for the upload carries a PNG or BMP
source format, any two quality values in `[1, 100]` produce identical
runs — same response bytes, headers and library calls — on the
conversion and the resize path respectively: the encoder is invoked
without any quality setting. -/
theorem quality_noninterference_nonlossy (env : PillowEnv) (file : List Nat)
    (tf : String) (width height : Option Int) (q1 q2 : Nat)
    (hq1 : 1 ≤ q1 ∧ q1 ≤ 100) (hq2 : 1 ≤ q2 ∧ q2 ≤ 100)
    (hconv : pyUpper tf = "PNG" ∨ pyUpper tf = "BMP")
    (hsrc : ∀ img, env.decode file = .ok img →
      pyFormat img.format = "PNG" ∨ pyFormat img.format = "BMP") :
    convert_image env file tf q1 = convert_image env file tf q2 ∧
    resize_image env file width height q1 = resize_image env file width height q2 := by
  constructor
  · have hnl : pyUpper tf ∉ lossyFormats := by
      rcases hconv with h | h <;> rw [h] <;> decide
    simp only [convert_image, if_neg hnl]
  · rcases hdec : env.decode file with e | img
    · simp only [resize_image, hdec]
    · have hnl : pyFormat img.format ∉ lossyFormats := by
        rcases hsrc img hdec with h | h <;> rw [h] <;> decide
      simp only [resize_image, hdec, if_neg hnl]

/-- Witness for C7: qualities 30 and 90 produce identical runs when
converting to PNG and when resizing a decoded PNG. -/
theorem quality_noninterference_nonlossy_witness :
    ((1 ≤ 30 ∧ 30 ≤ 100) ∧ (1 ≤ 90 ∧ 90 ≤ 100)) ∧
    convert_image sampleEnv [] "png" 30 = convert_image sampleEnv [] "png" 90 ∧
    resize_image sampleEnv [] (some 5) (some 5) 30 =
      resize_image sampleEnv [] (some 5) (some 5) 90 := by
  have h := quality_noninterference_nonlossy sampleEnv [] "png" (some 5) (some 5) 30 90
    (by decide) (by decide) (by left; decide)
    (by
      intro img hd
      simp only [sampleEnv, Except.ok.injEq] at hd
      subst hd
      left; decide)
  exact ⟨⟨by decide, by decide⟩, h.1, h.2⟩

/-- Claim C8: with both `width` and `height` supplied, the pair is used
exactly as provided — `computeDims` returns it unchanged and the
resampling call receives precisely those two integers, with no
aspect-ratio adjustment. -/
theorem resize_both_dims_exact (env : PillowEnv) (file : List Nat)
    (img : DecodedImage) (q : Nat) (w h : Int)
    (hdec : env.decode file = .ok img) :
    computeDims (some w) (some h) img.width img.height = (w, h) ∧
    (resize_image env file (some w) (some h) q).2.take 3 =
      [.readFile, .decodeImage, .resampleEv w h] := by
  exact ⟨rfl, resize_trace_take3 env file (some w) (some h) q img (by simp) hdec⟩

/-- Witness for C8: requested 7×9 on a 100×33 image is resampled at
exactly 7×9. -/
theorem resize_both_dims_exact_witness :
    computeDims (some 7) (some 9) 100 33 = (7, 9) ∧
    (resize_image sampleEnv [] (some 7) (some 9) 85).2.take 3 =
      [.readFile, .decodeImage, .resampleEv 7 9] := by
  have h := resize_both_dims_exact sampleEnv [] ⟨100, 33, some "PNG"⟩ 85 7 9 rfl
  exact ⟨h.1, h.2⟩

/-- Claim C9: resize-path validation only demands that a dimension be
present — zero or negative values pass it, the resampling call is
reached with whatever integers result, and if the resampler itself
throws, the response is a 500 (`"Failed to resize the image. ..."`),
not a 400. -/
theorem resize_resample_error_500 (env : PillowEnv) (file : List Nat)
    (img : DecodedImage) (q : Nat) (width height : Option Int) (msg : String)
    (hwh : ¬(width = none ∧ height = none))
    (hdec : env.decode file = .ok img)
    (hres : env.resample img (computeDims width height img.width img.height).1
        (computeDims width height img.width img.height).2 = .error msg) :
    resize_image env file width height q =
      (.error 500 ("Failed to resize the image. Error: " ++ msg),
       [.readFile, .decodeImage,
        .resampleEv (computeDims width height img.width img.height).1
          (computeDims width height img.width img.height).2]) := by
  simp only [resize_image, if_neg hwh, hdec, hres]

/-- Witness for C9: `width = 0`, `height = -5` passes validation, the
resampler is invoked at `(0, -5)` and its exception surfaces as a 500. -/
theorem resize_resample_error_500_witness :
    resize_image resampleFailEnv [] (some 0) (some (-5)) 85 =
      (.error 500 ("Failed to resize the image. Error: "
         ++ "height and width must be > 0"),
       [.readFile, .decodeImage, .resampleEv 0 (-5)]) := by
  have h := resize_resample_error_500 resampleFailEnv [] ⟨100, 33, some "PNG"⟩ 85
    (some 0) (some (-5)) "height and width must be > 0" (by simp) rfl rfl
  exact h.trans (by decide)

/-- Claim C10: the resize path performs no output-format validation:
for a decoded image whose detected format `f` lies outside the
conversion allow-list (and is non-empty), the handler still attempts to
encode in `f`, using it for the Content-Type and filename on success,
and only an encoder-level exception — mapped to 500 — can reject the
request. -/
theorem resize_format_not_restricted (env : PillowEnv) (file : List Nat)
    (img : DecodedImage) (q : Nat) (width height : Option Int) (f : String)
    (hwh : ¬(width = none ∧ height = none))
    (hdec : env.decode file = .ok img)
    (hfmt : img.format = some f) (hne : f ≠ "")
    (hout : f ∉ allowedFormats) :
    (∀ resized msg,
      env.resample img (computeDims width height img.width img.height).1
          (computeDims width height img.width img.height).2 = .ok resized →
      env.encode resized f (if f ∈ lossyFormats then some q else none) = .error msg →
      resize_image env file width height q =
        (.error 500 ("Failed to save the resized image. Error: " ++ msg),
         [.readFile, .decodeImage,
          .resampleEv (computeDims width height img.width img.height).1
            (computeDims width height img.width img.height).2,
          .encodeEv f (if f ∈ lossyFormats then some q else none)])) ∧
    (∀ resized body,
      env.resample img (computeDims width height img.width img.height).1
          (computeDims width height img.width img.height).2 = .ok resized →
      env.encode resized f (if f ∈ lossyFormats then some q else none) = .ok body →
      resize_image env file width height q =
        (.ok body ("image/" ++ pyLower f)
           ("resized_" ++ toString (computeDims width height img.width img.height).1
             ++ "x" ++ toString (computeDims width height img.width img.height).2
             ++ "." ++ pyLower f),
         [.readFile, .decodeImage,
          .resampleEv (computeDims width height img.width img.height).1
            (computeDims width height img.width img.height).2,
          .encodeEv f (if f ∈ lossyFormats then some q else none)])) := by
  have hpf : pyFormat img.format = f := by
    rw [hfmt]
    simp [pyFormat, hne]
  constructor
  · intro resized msg hres henc
    simp only [resize_image, if_neg hwh, hdec, hres, hpf, henc]
  · intro resized body hres henc
    simp only [resize_image, if_neg hwh, hdec, hres, hpf, henc]

/-- Witness for C10: a decoded GIF — outside the conversion allow-list —
is re-encoded as GIF with `image/gif` and a `.gif` filename. -/
theorem resize_format_not_restricted_witness :
    "GIF" ∉ allowedFormats ∧
    resize_image gifEnv [] (some 2) (some 3) 85 =
      (.ok [9] "image/gif" "resized_2x3.gif",
       [.readFile, .decodeImage, .resampleEv 2 3, .encodeEv "GIF" none]) := by
  have h := (resize_format_not_restricted gifEnv [] ⟨10, 10, some "GIF"⟩ 85
    (some 2) (some 3) "GIF" (by simp) rfl rfl (by decide) (by decide)).2
    ⟨10, 10, some "GIF"⟩ [9] rfl rfl
  exact ⟨by decide, h.trans (by decide)⟩
